import Mathlib

/-!
Shallow embedding of the `bevy_city` city-generation and traffic-simulation
code (`src/main.rs`, with the same logic also present in
`src/roads_and_cars.rs`, `src/low_density.rs`, `src/medium_density.rs`,
`src/skyscrapers.rs`).

Modelling conventions:

* `f32`/`f64` arithmetic is idealised as exact rational arithmetic (`ℚ`).
  Every numeric constant appearing in the source (0.15, 5.2, 0.75, 0.55, ...)
  is exactly representable as a decimal rational, so every comparison the
  code performs is mirrored exactly.
* Rotations in the source are always `Quat::from_axis_angle(Vec3::Y, a)`
  where `a` is a rational multiple of π; a rotation is stored as that
  multiple (`rotYPi`): `FRAC_PI_2 ↦ 1/2`, `PI ↦ 1`, `3.0 * -FRAC_PI_2 ↦ -3/2`.
* The `rand` crate's `SmallRng` is a deterministic stream for a fixed seed;
  it is modelled as an abstract state `Rng`: a stream of rationals backing
  `rng.random::<f32>()` and a stream of naturals backing
  `rng.random_range(0..n)` (reduced modulo `n`, so a draw is always in
  range, as the library guarantees), each with a cursor that advances on
  every draw.  The `OpenSimplex` noise function is an abstract
  `ℚ → ℚ → ℚ` parameter (the source calls `noise.get([x, z, 0.0])`).
* The ECS command queue is modelled by returning, in spawn order, the list
  of spawned scene placements (asset tag + transform), the registered
  `RoadSegment`s, and the spawned cars (the `Car` component together with
  the `Transform` the entity is spawned with).
* `Vec3::length` / `Vec3::normalize` involve a square root and are modelled
  over `ℝ` by `vecLength` / `normalizeVec`; the `RoadSegment` values stored
  by the generator carry the (exact, rational) values of those computations,
  certified against `vecLength` / `normalizeVec` by the segment theorems.
-/

namespace BevyCity

/-- `glam`'s `Vec3` with exact rational components. -/
structure Vec3 where
  x : ℚ
  y : ℚ
  z : ℚ
deriving DecidableEq, Repr

instance : Add Vec3 := ⟨fun a b => ⟨a.x + b.x, a.y + b.y, a.z + b.z⟩⟩

instance : Sub Vec3 := ⟨fun a b => ⟨a.x - b.x, a.y - b.y, a.z - b.z⟩⟩

/-- Scalar multiplication `q * v` on `Vec3`. -/
def Vec3.smul (q : ℚ) (v : Vec3) : Vec3 := ⟨q * v.x, q * v.y, q * v.z⟩

/-- `Vec3::splat` from the source. -/
def Vec3.splat (q : ℚ) : Vec3 := ⟨q, q, q⟩

/-- Squared euclidean norm (rational, exact). -/
def Vec3.normSq (v : Vec3) : ℚ := v.x * v.x + v.y * v.y + v.z * v.z

/-- `Vec3::length()` from the source, idealised over `ℝ`. -/
noncomputable def vecLength (v : Vec3) : ℝ := Real.sqrt ((v.normSq : ℝ))

/-- A real-valued 3-vector, the codomain of `Vec3::normalize()`. -/
structure RVec3 where
  x : ℝ
  y : ℝ
  z : ℝ

/-- Coerce an exact vector to a real vector. -/
def Vec3.toReal (v : Vec3) : RVec3 := ⟨(v.x : ℝ), (v.y : ℝ), (v.z : ℝ)⟩

/-- `Vec3::normalize()` from the source: `v / v.length()`, over `ℝ`. -/
noncomputable def normalizeVec (v : Vec3) : RVec3 :=
  ⟨(v.x : ℝ) / vecLength v, (v.y : ℝ) / vecLength v, (v.z : ℝ) / vecLength v⟩

/-- Bevy `Transform`: translation, rotation about `Vec3::Y` (stored as the
multiple of π, see the file header) and non-uniform scale. -/
structure Transform where
  translation : Vec3
  rotYPi : ℚ
  scale : Vec3
deriving DecidableEq, Repr

/-- `Transform::from_translation(t)`: identity rotation, unit scale. -/
def Transform.fromTranslation (t : Vec3) : Transform := ⟨t, 0, ⟨1, 1, 1⟩⟩

/-- `.with_scale(s)` builder. -/
def Transform.withScale (t : Transform) (s : Vec3) : Transform :=
  { t with scale := s }

/-- `.with_rotation(Quat::from_axis_angle(Vec3::Y, a*π))` builder. -/
def Transform.withRotYPi (t : Transform) (a : ℚ) : Transform :=
  { t with rotYPi := a }

/-- The `RoadSegment` component from `main.rs` (start, end, derived
direction and length).  `direction` and `length` store the exact rational
values of `(end - start).normalize()` and `(end - start).length()`; the
segment theorems certify the stored fields against `normalizeVec` and
`vecLength`. -/
structure RoadSegment where
  start : Vec3
  endPos : Vec3
  direction : Vec3
  length : ℚ
deriving DecidableEq, Repr

/-- The `Car` component from `main.rs`.  The `road_segment: Entity`
reference is modelled as a natural-number entity id, resolved through a
partial table (see `moveCars`). -/
structure Car where
  road_segment : ℕ
  speed : ℚ
  distance_traveled : ℚ
deriving DecidableEq, Repr

/-- Abstract model of `SmallRng`: a float stream (for `random::<f32>()`)
and an integer stream (for `random_range(0..n)`), each with a cursor. -/
structure Rng where
  floats : ℕ → ℚ
  ints : ℕ → ℕ
  fpos : ℕ
  ipos : ℕ

/-- `rng.random::<f32>()`: take the next float, advance the cursor. -/
def Rng.randomFloat (r : Rng) : ℚ × Rng :=
  (r.floats r.fpos, { r with fpos := r.fpos + 1 })

/-- `rng.random_range(0..n)`: take the next integer reduced mod `n` (the
library guarantees the draw is in range), advance the cursor. -/
def Rng.randomRange (r : Rng) (n : ℕ) : ℕ × Rng :=
  (r.ints r.ipos % n, { r with ipos := r.ipos + 1 })

/-- Asset tags for everything the generator spawns.  Random selections
carry the drawn indices: a building carries its mesh and material index in
its pool, a car its index in the 8-entry car pool, a tree its index in the
2-entry `[tree_small, tree_large]` pool (`low_density` always uses
`tree_small`, index 0).  `groundTile true` is the grass-material tile,
`groundTile false` the default-material tile. -/
inductive Asset where
  | crossroad : Asset
  | straightRoad : Asset
  | groundTile (grass : Bool) : Asset
  | tree (idx : ℕ) : Asset
  | fence : Asset
  | pathStones : Asset
  | lowBuilding (mesh mat : ℕ) : Asset
  | mediumBuilding (mesh mat : ℕ) : Asset
  | skyscraper (mesh mat : ℕ) : Asset
  | car (idx : ℕ) : Asset
deriving DecidableEq, Repr

/-- One spawned scene object: its asset and its transform. -/
structure Placement where
  asset : Asset
  transform : Transform
deriving DecidableEq, Repr

def Asset.isCrossroadA : Asset → Bool
  | .crossroad => true
  | _ => false

def Asset.isStraightA : Asset → Bool
  | .straightRoad => true
  | _ => false

def Asset.isGroundTileA : Asset → Bool
  | .groundTile _ => true
  | _ => false

def Asset.isGrassTileA : Asset → Bool
  | .groundTile g => g
  | _ => false

def Asset.isTreeA : Asset → Bool
  | .tree _ => true
  | _ => false

def Asset.isFenceA : Asset → Bool
  | .fence => true
  | _ => false

def Asset.isPathStonesA : Asset → Bool
  | .pathStones => true
  | _ => false

def Asset.isLowBuildingA : Asset → Bool
  | .lowBuilding _ _ => true
  | _ => false

def Asset.isMediumBuildingA : Asset → Bool
  | .mediumBuilding _ _ => true
  | _ => false

def Asset.isSkyscraperA : Asset → Bool
  | .skyscraper _ _ => true
  | _ => false

def Asset.isCarA : Asset → Bool
  | .car _ => true
  | _ => false

/-- Count the placements whose asset satisfies `test`. -/
def countAsset (test : Asset → Bool) (ps : List Placement) : ℕ :=
  ps.countP (fun p => test p.asset)

/-- The drawn tree index of every tree placement, in order. -/
def treeIndices (ps : List Placement) : List ℕ :=
  ps.filterMap (fun p =>
    match p.asset with
    | .tree i => some i
    | _ => none)

/-- The Y-rotation (as a multiple of π) of every medium-density building
placement, in order. -/
def mediumBuildingRots (ps : List Placement) : List ℚ :=
  ps.filterMap (fun p =>
    match p.asset with
    | .mediumBuilding _ _ => some p.transform.rotYPi
    | _ => none)

/-!  ## Traffic simulator (`move_cars` in `main.rs`)  -/

/-- One `move_cars` iteration for a single car, given the result of the
`segments.get(car.road_segment)` lookup.  On a failed lookup (`none`) the
body is skipped and car and transform are left untouched.  Otherwise:
`distance_traveled += speed * dt`; a hard reset to `0.0` when the new
distance exceeds `segment.length`; then the translation is recomputed as
`segment.start + segment.direction * segment.length * progress`. -/
def moveCar (seg? : Option RoadSegment) (c : Car) (t : Transform) (dt : ℚ) :
    Car × Transform :=
  match seg? with
  | none => (c, t)
  | some seg =>
    let d1 := c.distance_traveled + c.speed * dt
    let d2 := if d1 > seg.length then 0 else d1
    let progress := d2 / seg.length
    let newPos := seg.start + Vec3.smul (seg.length * progress) seg.direction
    (⟨c.road_segment, c.speed, d2⟩, { t with translation := newPos })

/-- The per-tick transition rule exactly as the spec states it
(spec §4.5): `distanceTraveled += speed * dt`; if
`distanceTraveled > segment.length`, reset to `0.0` (hard reset, not
wraparound subtraction); position recomputed as
`segment.start + segment.direction * segment.length *
(distanceTraveled / segment.length)`.  Written from the spec's words, to
be compared against `moveCar` (the code). -/
def specCarTick (seg : RoadSegment) (c : Car) (t : Transform) (dt : ℚ) :
    Car × Transform :=
  let traveled := c.distance_traveled + c.speed * dt
  let wrapped := if traveled > seg.length then 0 else traveled
  (⟨c.road_segment, c.speed, wrapped⟩,
   { t with translation :=
      seg.start + Vec3.smul (seg.length * (wrapped / seg.length)) seg.direction })

/-- The whole `move_cars` system over the car query: each `(Car, Transform)`
pair is updated independently through the segment lookup table. -/
def moveCars (segTable : ℕ → Option RoadSegment)
    (cars : List (Car × Transform)) (dt : ℚ) : List (Car × Transform) :=
  cars.map (fun ct => moveCar (segTable ct.1.road_segment) ct.1 ct.2 dt)

/-!  ## Zone classifier (`setup_city` in `main.rs`)  -/

/-- The four density classes the `if` chain in `setup_city` selects. -/
inductive DensityClass where
  | rural : DensityClass
  | lowDensity : DensityClass
  | mediumDensity : DensityClass
  | highDensity : DensityClass
deriving DecidableEq, Repr

/-- `density` as computed in `setup_city`: noise sampled at
`offset.x * 0.025, offset.z * 0.025`, remapped by `* 0.5 + 0.5`. -/
def densityAt (noise : ℚ → ℚ → ℚ) (offset : Vec3) : ℚ :=
  noise (offset.x * 0.025) (offset.z * 0.025) * 0.5 + 0.5

/-- The classification made by `setup_city`'s if-chain with the constants
`rural = 0.45`, `low_density = 0.6`, `medium_density = 0.7`. -/
def classifyDensity (d : ℚ) : DensityClass :=
  if d < 0.45 then .rural
  else if d < 0.6 then .lowDensity
  else if d < 0.7 then .mediumDensity
  else .highDensity

/-!  ## Road & intersection generator (`spawn_roads_and_cars` in `main.rs`)

Per block (`offset` is the block origin, `base` the entity id of the first
of the four road-segment entities spawned for this block — the source binds
cars to the `Entity` ids returned by `commands.spawn(...)`):
segment `base` is the forward X lane, `base + 1` the reverse X lane,
`base + 2` the forward Z lane, `base + 3` the reverse Z lane.  -/

/-- `RoadSegment::new(Vec3::new(0.3, 0.0, 0.15) + offset, Vec3::new(5.2, 0.0, 0.15) + offset)`.
The stored `direction`/`length` are the exact values of the
normalize/length computations, certified by the C5 theorem. -/
def xSeg (offset : Vec3) : RoadSegment :=
  { start := ⟨0.3, 0, 0.15⟩ + offset
    endPos := ⟨5.2, 0, 0.15⟩ + offset
    direction := ⟨1, 0, 0⟩
    length := 4.9 }

/-- `RoadSegment::new(Vec3::new(5.2, 0.0, -0.15) + offset, Vec3::new(0.3, 0.0, -0.15) + offset)`. -/
def xRevSeg (offset : Vec3) : RoadSegment :=
  { start := ⟨5.2, 0, -0.15⟩ + offset
    endPos := ⟨0.3, 0, -0.15⟩ + offset
    direction := ⟨-1, 0, 0⟩
    length := 4.9 }

/-- `RoadSegment::new(Vec3::new(-0.15, 0.0, 0.75) + offset, Vec3::new(-0.15, 0.0, 3.25) + offset)`. -/
def zSeg (offset : Vec3) : RoadSegment :=
  { start := ⟨-0.15, 0, 0.75⟩ + offset
    endPos := ⟨-0.15, 0, 3.25⟩ + offset
    direction := ⟨0, 0, 1⟩
    length := 2.5 }

/-- `RoadSegment::new(Vec3::new(0.15, 0.0, 3.25) + offset, Vec3::new(0.15, 0.0, 0.75) + offset)`. -/
def zRevSeg (offset : Vec3) : RoadSegment :=
  { start := ⟨0.15, 0, 3.25⟩ + offset
    endPos := ⟨0.15, 0, 0.75⟩ + offset
    direction := ⟨0, 0, -1⟩
    length := 2.5 }

/-- Transform of a forward X-lane car at slot `i`:
`Vec3::new(0.75 + i * 0.5, 0.0, 0.15) + offset`, scale `splat(0.15)`,
rotation `3.0 * -FRAC_PI_2`. -/
def xCarTransform (offset : Vec3) (i : ℕ) : Transform :=
  ((Transform.fromTranslation (⟨0.75 + (i : ℚ) * 0.5, 0, 0.15⟩ + offset)).withScale
    (Vec3.splat 0.15)).withRotYPi (-3/2)

/-- Transform of a reverse X-lane car at slot `i` (rotation `-FRAC_PI_2`). -/
def xRevCarTransform (offset : Vec3) (i : ℕ) : Transform :=
  ((Transform.fromTranslation (⟨0.75 + (i : ℚ) * 0.5, 0, -0.15⟩ + offset)).withScale
    (Vec3.splat 0.15)).withRotYPi (-1/2)

/-- Transform of a forward Z-lane car at slot `i` (no rotation). -/
def zCarTransform (offset : Vec3) (i : ℕ) : Transform :=
  (Transform.fromTranslation (⟨-0.15, 0, 0.75 + (i : ℚ) * 0.5⟩ + offset)).withScale
    (Vec3.splat 0.15)

/-- Transform of a reverse Z-lane car at slot `i` (rotation `PI`). -/
def zRevCarTransform (offset : Vec3) (i : ℕ) : Transform :=
  ((Transform.fromTranslation (⟨0.15, 0, 0.75 + (i : ℚ) * 0.5⟩ + offset)).withScale
    (Vec3.splat 0.15)).withRotYPi 1

/-- The `// X cars` loop: at each slot `i`, one uniform draw for the
forward lane and one for the reverse lane; a car is spawned when the draw
exceeds `car_density = 0.75`, consuming one further draw (`random_car`)
from the 8-entry car pool.  Forward X cars bind segment `base`, reverse X
cars segment `base + 1`; both start with `distance_traveled = i * 0.55`. -/
def xCarLoop (slots : List ℕ) (offset : Vec3) (base : ℕ) (r : Rng) :
    List Placement × List (Car × Transform) × Rng :=
  match slots with
  | [] => ([], [], r)
  | i :: rest =>
    let (f1, r1) := r.randomFloat
    let (ps1, cs1, r2) :=
      if f1 > 0.75 then
        let (ci, r') := r1.randomRange 8
        ([⟨.car ci, xCarTransform offset i⟩],
         [(⟨base, 2, (i : ℚ) * 0.55⟩, xCarTransform offset i)], r')
      else ([], [], r1)
    let (f2, r3) := r2.randomFloat
    let (ps2, cs2, r4) :=
      if f2 > 0.75 then
        let (ci, r') := r3.randomRange 8
        ([⟨.car ci, xRevCarTransform offset i⟩],
         [(⟨base + 1, 2, (i : ℚ) * 0.55⟩, xRevCarTransform offset i)], r')
      else ([], [], r3)
    let (ps, cs, r5) := xCarLoop rest offset base r4
    (ps1 ++ (ps2 ++ ps), cs1 ++ (cs2 ++ cs), r5)

/-- The `// Z cars` loop, same shape as `xCarLoop`; forward Z cars bind
segment `base + 2`, reverse Z cars `base + 3`, and both start with
`distance_traveled = i * 0.5`. -/
def zCarLoop (slots : List ℕ) (offset : Vec3) (base : ℕ) (r : Rng) :
    List Placement × List (Car × Transform) × Rng :=
  match slots with
  | [] => ([], [], r)
  | i :: rest =>
    let (f1, r1) := r.randomFloat
    let (ps1, cs1, r2) :=
      if f1 > 0.75 then
        let (ci, r') := r1.randomRange 8
        ([⟨.car ci, zCarTransform offset i⟩],
         [(⟨base + 2, 2, (i : ℚ) * 0.5⟩, zCarTransform offset i)], r')
      else ([], [], r1)
    let (f2, r3) := r2.randomFloat
    let (ps2, cs2, r4) :=
      if f2 > 0.75 then
        let (ci, r') := r3.randomRange 8
        ([⟨.car ci, zRevCarTransform offset i⟩],
         [(⟨base + 3, 2, (i : ℚ) * 0.5⟩, zRevCarTransform offset i)], r')
      else ([], [], r3)
    let (ps, cs, r5) := zCarLoop rest offset base r4
    (ps1 ++ (ps2 ++ ps), cs1 ++ (cs2 ++ cs), r5)

/-- `spawn_roads_and_cars`: one crossroad at the block origin; the X
straight road (scale 4.5 along X); the four road-segment entities; the Z
straight road (scale 3.0, rotated `FRAC_PI_2`); then the two car loops
(9 X slots, 6 Z slots).  Returns `(placements, segments, cars, rng)`. -/
def spawnRoadsAndCars (r : Rng) (offset : Vec3) (base : ℕ) :
    List Placement × List RoadSegment × List (Car × Transform) × Rng :=
  let crossP : Placement := ⟨.crossroad, Transform.fromTranslation offset⟩
  let straightXP : Placement :=
    ⟨.straightRoad,
      (Transform.fromTranslation (⟨2.75, 0, 0⟩ + offset)).withScale ⟨4.5, 1, 1⟩⟩
  let straightZP : Placement :=
    ⟨.straightRoad,
      ((Transform.fromTranslation (⟨0, 0, 2⟩ + offset)).withScale ⟨3, 1, 1⟩).withRotYPi (1/2)⟩
  let segs := [xSeg offset, xRevSeg offset, zSeg offset, zRevSeg offset]
  let xres := xCarLoop (List.range 9) offset base r
  let zres := zCarLoop (List.range 6) offset base xres.2.2
  (crossP :: straightXP :: straightZP :: (xres.1 ++ zres.1), segs,
    xres.2.1 ++ zres.2.1, zres.2.2)

/-!  ## Block content generators  -/

/-- Random selection from the low-density pool in `main.rs`: a mesh index
from the 5-entry mesh list and an independent material index from the
4-entry material list. -/
def randomLowBuilding (r : Rng) : Asset × Rng :=
  let (m, r1) := r.randomRange 5
  let (mat, r2) := r1.randomRange 4
  (.lowBuilding m mat, r2)

/-- Random selection from the medium-density pool: 7 meshes, 3 materials. -/
def randomMediumBuilding (r : Rng) : Asset × Rng :=
  let (m, r1) := r.randomRange 7
  let (mat, r2) := r1.randomRange 3
  (.mediumBuilding m mat, r2)

/-- Random selection from the skyscraper pool: 7 meshes, 3 materials. -/
def randomSkyscraper (r : Rng) : Asset × Rng :=
  let (m, r1) := r.randomRange 7
  let (mat, r2) := r1.randomRange 3
  (.skyscraper m mat, r2)

/-- The ground tile spawned at the head of every density branch in
`setup_city`: translation `Vec3::new(0.5, -0.5005, 0.5) + scale/2 + offset`
with `scale = Vec3::new(4.5, 1.0, 3.0)`; grass material in the rural and
low-density branches, default material otherwise. -/
def groundTileP (grass : Bool) (offset : Vec3) : Placement :=
  ⟨.groundTile grass,
    (Transform.fromTranslation
      (⟨0.5, -0.5005, 0.5⟩ + Vec3.smul (1/2) ⟨4.5, 1, 3⟩ + offset)).withScale
      ⟨4.5, 1, 3⟩⟩

/-- The two tree rows of `spawn_low_density`: `for z in 0..=8`, a
`tree_small` at x = 0.75 and one at x = 4.75, both at z = 0.75 + z*0.3. -/
def lowTreeRows (offset : Vec3) : List Placement :=
  (List.range 9).flatMap (fun z =>
    [⟨.tree 0, Transform.fromTranslation (⟨0.75, 0, 0.75 + (z : ℚ) * 0.3⟩ + offset)⟩,
     ⟨.tree 0, Transform.fromTranslation (⟨4.75, 0, 0.75 + (z : ℚ) * 0.3⟩ + offset)⟩])

/-- The fence line of `spawn_low_density`: `for i in 0..=6`, a fence at
x = 2.75, z = 0.75 + i*0.4, rotated `FRAC_PI_2`. -/
def lowFences (offset : Vec3) : List Placement :=
  (List.range 7).map (fun i =>
    ⟨.fence,
      (Transform.fromTranslation (⟨2.75, 0, 0.75 + (i : ℚ) * 0.4⟩ + offset)).withRotYPi (1/2)⟩)

/-- The building loop of `spawn_low_density`: `for x in 1..=2` with
`x_factor = 1.8`, a random building at z = 1.25 and a second independent
random building at z = 2.75 rotated `PI`. -/
def lowBuildLoop (xs : List ℕ) (r : Rng) (offset : Vec3) :
    List Placement × Rng :=
  match xs with
  | [] => ([], r)
  | x :: rest =>
    let (b1, r1) := randomLowBuilding r
    let (b2, r2) := randomLowBuilding r1
    let (ps, r3) := lowBuildLoop rest r2 offset
    (⟨b1, Transform.fromTranslation (⟨(x : ℚ) * 1.8, 0, 1.25⟩ + offset)⟩ ::
     ⟨b2, (Transform.fromTranslation (⟨(x : ℚ) * 1.8, 0, 2.75⟩ + offset)).withRotYPi 1⟩ ::
     ps, r3)

/-- `spawn_low_density`: tree rows, then fences, then the building loop. -/
def spawnLowDensity (r : Rng) (offset : Vec3) : List Placement × Rng :=
  let bres := lowBuildLoop [1, 2] r offset
  (lowTreeRows offset ++ lowFences offset ++ bres.1, bres.2)

/-- One pair of trees in `spawn_medium_density`, at lateral offset `tx`
within slot `x` (z = 1.75 and z = 2.25). -/
def medTreePair (treeIdx : ℕ) (x : ℕ) (tx : ℚ) (offset : Vec3) : List Placement :=
  [⟨.tree treeIdx, Transform.fromTranslation (⟨tx + (x : ℚ) * 0.9, 0, 1.75⟩ + offset)⟩,
   ⟨.tree treeIdx, Transform.fromTranslation (⟨tx + (x : ℚ) * 0.9, 0, 2.25⟩ + offset)⟩]

/-- The inner `for tree_x in 0..=1` loop of `spawn_medium_density`:
`tree_x` scaled by 0.5; the `if x == 5 && tree_x == 0.5 { break }` guard
drops the second pair in the last slot. -/
def medSlotTrees (treeIdx : ℕ) (x : ℕ) (offset : Vec3) : List Placement :=
  medTreePair treeIdx x 0 offset ++
    (if x = 5 then [] else medTreePair treeIdx x 0.5 offset)

/-- The building loop of `spawn_medium_density`: `for x in 1..=5` with
`x_factor = 0.9`, a random building at z = 1.0, the slot's tree pairs,
then a second independent random building at z = 3.0 rotated `PI`. -/
def medBuildLoop (xs : List ℕ) (treeIdx : ℕ) (r : Rng) (offset : Vec3) :
    List Placement × Rng :=
  match xs with
  | [] => ([], r)
  | x :: rest =>
    let (b1, r1) := randomMediumBuilding r
    let (b2, r2) := randomMediumBuilding r1
    let (ps, r3) := medBuildLoop rest treeIdx r2 offset
    (⟨b1, Transform.fromTranslation (⟨(x : ℚ) * 0.9, 0, 1⟩ + offset)⟩ ::
      (medSlotTrees treeIdx x offset ++
        (⟨b2, (Transform.fromTranslation (⟨(x : ℚ) * 0.9, 0, 3⟩ + offset)).withRotYPi 1⟩ ::
         ps)), r3)

/-- The path of `spawn_medium_density`: `for x in 0..=10`, a path-stones
segment at x = 0.75 + x*0.4, y = 0.02, z = 2.0, scale (1, 2, 1), rotated
`FRAC_PI_2`. -/
def medPath (offset : Vec3) : List Placement :=
  (List.range 11).map (fun x =>
    ⟨.pathStones,
      ((Transform.fromTranslation (⟨0.75 + (x : ℚ) * 0.4, 0.02, 2⟩ + offset)).withScale
        ⟨1, 2, 1⟩).withRotYPi (1/2)⟩)

/-- `spawn_medium_density`: one tree species drawn from the 2-entry
`[tree_small, tree_large]` pool, shared by the whole alley; then the
building/tree slot loop; then the path. -/
def spawnMediumDensity (r : Rng) (offset : Vec3) : List Placement × Rng :=
  let draw := r.randomRange 2
  let bres := medBuildLoop [1, 2, 3, 4, 5] draw.1 draw.2 offset
  (bres.1 ++ medPath offset, bres.2)

/-- `spawn_high_density`: `for x in 0..3`, a random skyscraper at
x = 1.25 + x*1.5, z = 1.25 and a second independent one at z = 2.75
rotated `PI`. -/
def highBuildLoop (xs : List ℕ) (r : Rng) (offset : Vec3) :
    List Placement × Rng :=
  match xs with
  | [] => ([], r)
  | x :: rest =>
    let (b1, r1) := randomSkyscraper r
    let (b2, r2) := randomSkyscraper r1
    let (ps, r3) := highBuildLoop rest r2 offset
    (⟨b1, Transform.fromTranslation (⟨1.25 + (x : ℚ) * 1.5, 0, 1.25⟩ + offset)⟩ ::
     ⟨b2, (Transform.fromTranslation (⟨1.25 + (x : ℚ) * 1.5, 0, 2.75⟩ + offset)).withRotYPi 1⟩ ::
     ps, r3)

/-- `spawn_high_density` over its three slots. -/
def spawnHighDensity (r : Rng) (offset : Vec3) : List Placement × Rng :=
  highBuildLoop [0, 1, 2] r offset

/-!  ## Per-block orchestration and the city grid (`setup_city`)  -/

/-- The `spawn_city_block` closure in `setup_city`: roads and cars first,
then the noise-driven density branch.  Every branch spawns exactly one
ground tile (grass for the rural and low branches, default otherwise)
before its content generator. -/
def spawnCityBlock (noise : ℚ → ℚ → ℚ) (r : Rng) (offset : Vec3) (base : ℕ) :
    List Placement × List RoadSegment × List (Car × Transform) × Rng :=
  let roadRes := spawnRoadsAndCars r offset base
  let r1 := roadRes.2.2.2
  let density := densityAt noise offset
  let content : List Placement × Rng :=
    if density < 0.45 then
      ([groundTileP true offset], r1)
    else if density < 0.6 then
      let res := spawnLowDensity r1 offset
      (groundTileP true offset :: res.1, res.2)
    else if density < 0.7 then
      let res := spawnMediumDensity r1 offset
      (groundTileP false offset :: res.1, res.2)
    else
      let res := spawnHighDensity r1 offset
      (groundTileP false offset :: res.1, res.2)
  (roadRes.1 ++ content.1, roadRes.2.1, roadRes.2.2.1, content.2)

/-- The world offset of block `(bx, bz)`:
`Vec3::new(x * 5.5, 0.0, z * 4.0)`. -/
def blockOffset (bx bz : ℤ) : Vec3 := ⟨(bx : ℚ) * 5.5, 0, (bz : ℚ) * 4⟩

/-- The grid coordinates `for x in -size..=size { for z in -size..=size }`
in iteration order. -/
def gridCoords (size : ℕ) : List (ℤ × ℤ) :=
  (List.range (2 * size + 1)).flatMap (fun i =>
    (List.range (2 * size + 1)).map (fun j =>
      ((i : ℤ) - (size : ℤ), (j : ℤ) - (size : ℤ))))

/-- Fold of `spawn_city_block` over a list of block coordinates, threading
the RNG and allocating four road-segment entity ids per block. -/
def setupCityAux (coords : List (ℤ × ℤ)) (noise : ℚ → ℚ → ℚ) (r : Rng)
    (base : ℕ) : List Placement × List RoadSegment × List (Car × Transform) × Rng :=
  match coords with
  | [] => ([], [], [], r)
  | (bx, bz) :: rest =>
    let blockRes := spawnCityBlock noise r (blockOffset bx bz) base
    let restRes := setupCityAux rest noise blockRes.2.2.2 (base + 4)
    (blockRes.1 ++ restRes.1, blockRes.2.1 ++ restRes.2.1,
      blockRes.2.2.1 ++ restRes.2.2.1, restRes.2.2.2)

/-- `setup_city`'s grid sweep (the source fixes `size = 20`; `size` is the
grid radius here).  The seed enters only through the RNG stream and the
noise function, exactly as `SmallRng::seed_from_u64(42)` and
`OpenSimplex::new(rng.random())` determine them in the source. -/
def setupCity (noise : ℚ → ℚ → ℚ) (r : Rng) (size : ℕ) :
    List Placement × List RoadSegment × List (Car × Transform) × Rng :=
  setupCityAux (gridCoords size) noise r 0

/-- An RNG whose float draws all exceed `car_density = 0.75`, so every car
slot spawns; used to exhibit concrete spawned cars. -/
def allSpawnRng : Rng := ⟨fun _ => 0.9, fun _ => 0, 0, 0⟩

/-- An arbitrary concrete RNG state for witnesses. -/
def constRng : Rng := ⟨fun _ => 0, fun _ => 0, 0, 0⟩

/-- All the facts `RoadSegment::new` guarantees about a stored segment:
the stored length is positive and equals `(end - start).length()`, and the
stored direction is `(end - start).normalize()`, a unit vector. -/
def segmentGeometry (s : RoadSegment) : Prop :=
  0 < s.length ∧
  ((s.length : ℝ)) = vecLength (s.endPos - s.start) ∧
  s.direction.toReal = normalizeVec (s.endPos - s.start) ∧
  s.direction.normSq = 1

/-!  ## Helper lemmas  -/

theorem Vec3.add_def (a b : Vec3) : a + b = ⟨a.x + b.x, a.y + b.y, a.z + b.z⟩ := rfl

theorem Vec3.sub_def (a b : Vec3) : a - b = ⟨a.x - b.x, a.y - b.y, a.z - b.z⟩ := rfl

theorem xCarLoop_count (test : Asset → Bool) (h : ∀ i, test (Asset.car i) = false)
    (slots : List ℕ) (offset : Vec3) (base : ℕ) (r : Rng) :
    countAsset test (xCarLoop slots offset base r).1 = 0 := by
  induction slots generalizing r with
  | nil => simp [xCarLoop, countAsset]
  | cons i rest ih =>
    simp only [xCarLoop]
    split <;> split <;>
      · simp_all [countAsset, Rng.randomFloat, Rng.randomRange]
        exact ih _

theorem zCarLoop_count (test : Asset → Bool) (h : ∀ i, test (Asset.car i) = false)
    (slots : List ℕ) (offset : Vec3) (base : ℕ) (r : Rng) :
    countAsset test (zCarLoop slots offset base r).1 = 0 := by
  induction slots generalizing r with
  | nil => simp [zCarLoop, countAsset]
  | cons i rest ih =>
    simp only [zCarLoop]
    split <;> split <;>
      · simp_all [countAsset, Rng.randomFloat, Rng.randomRange]
        exact ih _

theorem lowTreeRows_count (test : Asset → Bool) (offset : Vec3) :
    countAsset test (lowTreeRows offset) = if test (Asset.tree 0) then 18 else 0 := by
  by_cases h : test (Asset.tree 0) <;>
    simp [lowTreeRows, countAsset, List.range_succ, h]

theorem lowFences_count (test : Asset → Bool) (offset : Vec3) :
    countAsset test (lowFences offset) = if test Asset.fence then 7 else 0 := by
  by_cases h : test Asset.fence <;>
    simp [lowFences, countAsset, List.range_succ, h]

theorem medPath_count (test : Asset → Bool) (offset : Vec3) :
    countAsset test (medPath offset) = if test Asset.pathStones then 11 else 0 := by
  by_cases h : test Asset.pathStones <;>
    simp [medPath, countAsset, List.range_succ, h]

theorem lowBuildLoop_count_zero (test : Asset → Bool)
    (h : ∀ m mat, test (Asset.lowBuilding m mat) = false)
    (xs : List ℕ) (r : Rng) (offset : Vec3) :
    countAsset test (lowBuildLoop xs r offset).1 = 0 := by
  induction xs generalizing r with
  | nil => simp [lowBuildLoop, countAsset]
  | cons x rest ih =>
    simp_all [lowBuildLoop, countAsset, randomLowBuilding, Rng.randomRange]
    exact ih _

theorem lowBuildLoop_count_full (test : Asset → Bool)
    (h : ∀ m mat, test (Asset.lowBuilding m mat) = true)
    (xs : List ℕ) (r : Rng) (offset : Vec3) :
    countAsset test (lowBuildLoop xs r offset).1 = 2 * xs.length := by
  induction xs generalizing r with
  | nil => simp [lowBuildLoop, countAsset]
  | cons x rest ih =>
    simp_all [lowBuildLoop, countAsset, randomLowBuilding, Rng.randomRange]
    have := ih ({ r with ipos := r.ipos + 1 + 1 + 1 + 1 } : Rng)
    omega

theorem medSlotTrees_count (treeIdx x : ℕ) (offset : Vec3) :
    countAsset Asset.isTreeA (medSlotTrees treeIdx x offset) =
      if x = 5 then 2 else 4 := by
  by_cases hx : x = 5 <;>
    simp [medSlotTrees, medTreePair, countAsset, hx, Asset.isTreeA]

theorem medBuildLoop_count_zero (test : Asset → Bool)
    (hb : ∀ m mat, test (Asset.mediumBuilding m mat) = false)
    (ht : ∀ i, test (Asset.tree i) = false)
    (xs : List ℕ) (treeIdx : ℕ) (r : Rng) (offset : Vec3) :
    countAsset test (medBuildLoop xs treeIdx r offset).1 = 0 := by
  induction xs generalizing r with
  | nil => simp [medBuildLoop, countAsset]
  | cons x rest ih =>
    simp_all [medBuildLoop, countAsset, randomMediumBuilding, Rng.randomRange,
      medSlotTrees, medTreePair]
    refine ⟨?_, ih _⟩
    rintro a hx (rfl | rfl) <;> simp [ht]

theorem medBuildLoop_count_buildings (xs : List ℕ) (treeIdx : ℕ) (r : Rng) (offset : Vec3) :
    countAsset Asset.isMediumBuildingA (medBuildLoop xs treeIdx r offset).1 =
      2 * xs.length := by
  induction xs generalizing r with
  | nil => simp [medBuildLoop, countAsset]
  | cons x rest ih =>
    simp_all [medBuildLoop, countAsset, randomMediumBuilding, Rng.randomRange,
      medSlotTrees, medTreePair, Asset.isMediumBuildingA, Asset.isTreeA]
    have := ih ({ r with ipos := r.ipos + 1 + 1 + 1 + 1 } : Rng)
    split <;> simp_all <;> omega

theorem medBuildLoop_count_trees (xs : List ℕ) (treeIdx : ℕ) (r : Rng) (offset : Vec3) :
    countAsset Asset.isTreeA (medBuildLoop xs treeIdx r offset).1 =
      (xs.map (fun x => if x = 5 then 2 else 4)).sum := by
  induction xs generalizing r with
  | nil => simp [medBuildLoop, countAsset]
  | cons x rest ih =>
    simp_all [medBuildLoop, countAsset, randomMediumBuilding, Rng.randomRange,
      medSlotTrees, medTreePair, Asset.isMediumBuildingA, Asset.isTreeA]
    have := ih ({ r with ipos := r.ipos + 1 + 1 + 1 + 1 } : Rng)
    split <;> simp_all <;> omega

theorem medBuildLoop_treeIndices (xs : List ℕ) (treeIdx : ℕ) (r : Rng) (offset : Vec3) :
    treeIndices (medBuildLoop xs treeIdx r offset).1 =
      List.replicate ((xs.map (fun x => if x = 5 then 2 else 4)).sum) treeIdx := by
  induction xs generalizing r with
  | nil => simp [medBuildLoop, treeIndices]
  | cons x rest ih =>
    simp_all [medBuildLoop, treeIndices, randomMediumBuilding, Rng.randomRange,
      medSlotTrees, medTreePair]
    split <;> simp_all [List.replicate_succ, List.replicate_add]

theorem highBuildLoop_count_zero (test : Asset → Bool)
    (h : ∀ m mat, test (Asset.skyscraper m mat) = false)
    (xs : List ℕ) (r : Rng) (offset : Vec3) :
    countAsset test (highBuildLoop xs r offset).1 = 0 := by
  induction xs generalizing r with
  | nil => simp [highBuildLoop, countAsset]
  | cons x rest ih =>
    simp_all [highBuildLoop, countAsset, randomSkyscraper, Rng.randomRange]
    exact ih _

theorem countAsset_nil (test : Asset → Bool) : countAsset test [] = 0 := rfl

theorem countAsset_cons (test : Asset → Bool) (p : Placement) (l : List Placement) :
    countAsset test (p :: l) = countAsset test l + if test p.asset then 1 else 0 := by
  simp [countAsset, List.countP_cons]

theorem countAsset_append (test : Asset → Bool) (l1 l2 : List Placement) :
    countAsset test (l1 ++ l2) = countAsset test l1 + countAsset test l2 := by
  simp [countAsset, List.countP_append]

theorem spawnRoadsAndCars_count (test : Asset → Bool)
    (h : ∀ i, test (Asset.car i) = false) (r : Rng) (offset : Vec3) (base : ℕ) :
    countAsset test (spawnRoadsAndCars r offset base).1 =
      (if test Asset.crossroad then 1 else 0) +
        2 * (if test Asset.straightRoad then 1 else 0) := by
  simp only [spawnRoadsAndCars, countAsset_cons, countAsset_append,
    xCarLoop_count test h, zCarLoop_count test h]
  by_cases h1 : test Asset.crossroad <;> by_cases h2 : test Asset.straightRoad <;>
    simp [h1, h2]

theorem spawnLowDensity_count_zeroB (test : Asset → Bool)
    (hb : ∀ m mat, test (Asset.lowBuilding m mat) = false) (r : Rng) (offset : Vec3) :
    countAsset test (spawnLowDensity r offset).1 =
      (if test (Asset.tree 0) then 18 else 0) + (if test Asset.fence then 7 else 0) := by
  simp only [spawnLowDensity, countAsset_append, lowTreeRows_count, lowFences_count,
    lowBuildLoop_count_zero test hb]
  omega

theorem spawnLowDensity_count_fullB (test : Asset → Bool)
    (hb : ∀ m mat, test (Asset.lowBuilding m mat) = true) (r : Rng) (offset : Vec3) :
    countAsset test (spawnLowDensity r offset).1 =
      (if test (Asset.tree 0) then 18 else 0) + (if test Asset.fence then 7 else 0) + 4 := by
  simp only [spawnLowDensity, countAsset_append, lowTreeRows_count, lowFences_count,
    lowBuildLoop_count_full test hb]
  simp

theorem spawnMediumDensity_count_zero (test : Asset → Bool)
    (hb : ∀ m mat, test (Asset.mediumBuilding m mat) = false)
    (ht : ∀ i, test (Asset.tree i) = false) (r : Rng) (offset : Vec3) :
    countAsset test (spawnMediumDensity r offset).1 =
      if test Asset.pathStones then 11 else 0 := by
  simp only [spawnMediumDensity, countAsset_append, medPath_count,
    medBuildLoop_count_zero test hb ht]
  omega

theorem spawnHighDensity_count_zero (test : Asset → Bool)
    (h : ∀ m mat, test (Asset.skyscraper m mat) = false) (r : Rng) (offset : Vec3) :
    countAsset test (spawnHighDensity r offset).1 = 0 := by
  simp only [spawnHighDensity, highBuildLoop_count_zero test h]

theorem treeIndices_append (l1 l2 : List Placement) :
    treeIndices (l1 ++ l2) = treeIndices l1 ++ treeIndices l2 := by
  simp [treeIndices]

theorem mediumBuildingRots_append (l1 l2 : List Placement) :
    mediumBuildingRots (l1 ++ l2) = mediumBuildingRots l1 ++ mediumBuildingRots l2 := by
  simp [mediumBuildingRots]

theorem medPath_treeIndices (offset : Vec3) : treeIndices (medPath offset) = [] := by
  simp [medPath, treeIndices, List.range_succ]

theorem medPath_rots (offset : Vec3) : mediumBuildingRots (medPath offset) = [] := by
  simp [medPath, mediumBuildingRots, List.range_succ]

theorem medBuildLoop_rots (xs : List ℕ) (treeIdx : ℕ) (r : Rng) (offset : Vec3) :
    mediumBuildingRots (medBuildLoop xs treeIdx r offset).1 =
      xs.flatMap (fun _ => [0, 1]) := by
  induction xs generalizing r with
  | nil => simp [medBuildLoop, mediumBuildingRots]
  | cons x rest ih =>
    simp_all [medBuildLoop, mediumBuildingRots, randomMediumBuilding, Rng.randomRange,
      medSlotTrees, medTreePair, Transform.fromTranslation, Transform.withRotYPi]
    rintro a hx (rfl | rfl) <;> rfl

theorem medBuildLoop_ipos (xs : List ℕ) (treeIdx : ℕ) (r : Rng) (offset : Vec3) :
    (medBuildLoop xs treeIdx r offset).2.ipos = r.ipos + 4 * xs.length := by
  induction xs generalizing r with
  | nil => simp [medBuildLoop]
  | cons x rest ih =>
    simp_all [medBuildLoop, randomMediumBuilding, Rng.randomRange]
    omega

theorem xCarLoop_floats (slots : List ℕ) (offset : Vec3) (base : ℕ) (r : Rng) :
    (xCarLoop slots offset base r).2.2.floats = r.floats := by
  induction slots generalizing r with
  | nil => rfl
  | cons i rest ih =>
    simp only [xCarLoop]
    split <;> split <;> simp_all [Rng.randomFloat, Rng.randomRange]

theorem zCarLoop_mem_slot (slots : List ℕ) (offset : Vec3) (base : ℕ) (r : Rng)
    (hr : r.floats = fun _ => 0.9) :
    ∀ i ∈ slots, ((⟨base + 2, 2, (i : ℚ) * 0.5⟩ : Car), zCarTransform offset i) ∈
      (zCarLoop slots offset base r).2.1 := by
  induction slots generalizing r with
  | nil => simp
  | cons j rest ih =>
    intro i hi
    simp only [zCarLoop, Rng.randomFloat, Rng.randomRange, hr]
    rw [if_pos (by norm_num), if_pos (by norm_num)]
    rcases List.mem_cons.mp hi with hij | hrest
    · subst hij
      simp
    · simp only [List.cons_append, List.nil_append, List.mem_cons]
      right
      right
      exact ih _ (by simp [hr]) i hrest

theorem vecLength_eq (v : Vec3) (q : ℚ) (h : v.normSq = q * q) (hq : 0 ≤ q) :
    vecLength v = (q : ℝ) := by
  unfold vecLength
  rw [h]
  push_cast
  rw [show ((q : ℝ) * q = (q : ℝ) ^ 2) by ring]
  exact Real.sqrt_sq (by exact_mod_cast hq)

theorem xSeg_geometry (offset : Vec3) : segmentGeometry (xSeg offset) := by
  have hdiff : (xSeg offset).endPos - (xSeg offset).start = ⟨4.9, 0, 0⟩ := by
    simp only [xSeg, Vec3.add_def, Vec3.sub_def, Vec3.mk.injEq]
    refine ⟨by ring_nf, by ring, by ring⟩
  have hlen : vecLength ((xSeg offset).endPos - (xSeg offset).start) = ((4.9 : ℚ) : ℝ) := by
    rw [hdiff]
    exact vecLength_eq _ 4.9 (by norm_num [Vec3.normSq]) (by norm_num)
  refine ⟨by norm_num [xSeg], ?_, ?_, by norm_num [xSeg, Vec3.normSq]⟩
  · rw [hlen]
    norm_num [xSeg]
  · rw [hdiff] at hlen ⊢
    unfold normalizeVec
    rw [hlen]
    show RVec3.mk _ _ _ = _
    norm_num [xSeg, Vec3.toReal]

theorem xRevSeg_geometry (offset : Vec3) : segmentGeometry (xRevSeg offset) := by
  have hdiff : (xRevSeg offset).endPos - (xRevSeg offset).start = ⟨-4.9, 0, 0⟩ := by
    simp only [xRevSeg, Vec3.add_def, Vec3.sub_def, Vec3.mk.injEq]
    refine ⟨by ring_nf, by ring, by ring⟩
  have hlen : vecLength ((xRevSeg offset).endPos - (xRevSeg offset).start) = ((4.9 : ℚ) : ℝ) := by
    rw [hdiff]
    exact vecLength_eq _ 4.9 (by norm_num [Vec3.normSq]) (by norm_num)
  refine ⟨by norm_num [xRevSeg], ?_, ?_, by norm_num [xRevSeg, Vec3.normSq]⟩
  · rw [hlen]
    norm_num [xRevSeg]
  · rw [hdiff] at hlen ⊢
    unfold normalizeVec
    rw [hlen]
    show RVec3.mk _ _ _ = _
    norm_num [xRevSeg, Vec3.toReal]

theorem zSeg_geometry (offset : Vec3) : segmentGeometry (zSeg offset) := by
  have hdiff : (zSeg offset).endPos - (zSeg offset).start = ⟨0, 0, 2.5⟩ := by
    simp only [zSeg, Vec3.add_def, Vec3.sub_def, Vec3.mk.injEq]
    refine ⟨by ring_nf, by ring, by ring_nf⟩
  have hlen : vecLength ((zSeg offset).endPos - (zSeg offset).start) = ((2.5 : ℚ) : ℝ) := by
    rw [hdiff]
    exact vecLength_eq _ 2.5 (by norm_num [Vec3.normSq]) (by norm_num)
  refine ⟨by norm_num [zSeg], ?_, ?_, by norm_num [zSeg, Vec3.normSq]⟩
  · rw [hlen]
    norm_num [zSeg]
  · rw [hdiff] at hlen ⊢
    unfold normalizeVec
    rw [hlen]
    show RVec3.mk _ _ _ = _
    norm_num [zSeg, Vec3.toReal]

theorem zRevSeg_geometry (offset : Vec3) : segmentGeometry (zRevSeg offset) := by
  have hdiff : (zRevSeg offset).endPos - (zRevSeg offset).start = ⟨0, 0, -2.5⟩ := by
    simp only [zRevSeg, Vec3.add_def, Vec3.sub_def, Vec3.mk.injEq]
    refine ⟨by ring_nf, by ring, by ring_nf⟩
  have hlen : vecLength ((zRevSeg offset).endPos - (zRevSeg offset).start) = ((2.5 : ℚ) : ℝ) := by
    rw [hdiff]
    exact vecLength_eq _ 2.5 (by norm_num [Vec3.normSq]) (by norm_num)
  refine ⟨by norm_num [zRevSeg], ?_, ?_, by norm_num [zRevSeg, Vec3.normSq]⟩
  · rw [hlen]
    norm_num [zRevSeg]
  · rw [hdiff] at hlen ⊢
    unfold normalizeVec
    rw [hlen]
    show RVec3.mk _ _ _ = _
    norm_num [zRevSeg, Vec3.toReal]

/-!  ## Claim theorems  -/

/-- C6: for every block coordinate, regardless of the density class
assigned to it (i.e. for any noise function and any RNG state), generation
emits exactly one intersection (crossroad) placement, exactly two
straight-road placements, and exactly one ground-tile placement. -/
theorem roads_per_block_counts (noise : ℚ → ℚ → ℚ) (r : Rng) (offset : Vec3) (base : ℕ) :
    countAsset Asset.isCrossroadA (spawnCityBlock noise r offset base).1 = 1 ∧
    countAsset Asset.isStraightA (spawnCityBlock noise r offset base).1 = 2 ∧
    countAsset Asset.isGroundTileA (spawnCityBlock noise r offset base).1 = 1 := by
  refine ⟨?_, ?_, ?_⟩
  · simp only [spawnCityBlock]
    split_ifs <;>
      simp [countAsset_append, countAsset_cons, countAsset_nil,
        spawnRoadsAndCars_count Asset.isCrossroadA (fun _ => rfl),
        spawnLowDensity_count_zeroB Asset.isCrossroadA (fun _ _ => rfl),
        spawnMediumDensity_count_zero Asset.isCrossroadA (fun _ _ => rfl) (fun _ => rfl),
        spawnHighDensity_count_zero Asset.isCrossroadA (fun _ _ => rfl),
        groundTileP, Asset.isCrossroadA]
  · simp only [spawnCityBlock]
    split_ifs <;>
      simp [countAsset_append, countAsset_cons, countAsset_nil,
        spawnRoadsAndCars_count Asset.isStraightA (fun _ => rfl),
        spawnLowDensity_count_zeroB Asset.isStraightA (fun _ _ => rfl),
        spawnMediumDensity_count_zero Asset.isStraightA (fun _ _ => rfl) (fun _ => rfl),
        spawnHighDensity_count_zero Asset.isStraightA (fun _ _ => rfl),
        groundTileP, Asset.isStraightA]
  · simp only [spawnCityBlock]
    split_ifs <;>
      simp [countAsset_append, countAsset_cons, countAsset_nil,
        spawnRoadsAndCars_count Asset.isGroundTileA (fun _ => rfl),
        spawnLowDensity_count_zeroB Asset.isGroundTileA (fun _ _ => rfl),
        spawnMediumDensity_count_zero Asset.isGroundTileA (fun _ _ => rfl) (fun _ => rfl),
        spawnHighDensity_count_zero Asset.isGroundTileA (fun _ _ => rfl),
        groundTileP, Asset.isGroundTileA]

/-- C1: for every fixed seed and grid size, two independent runs of city
generation produce identical ordered placement sequences (same asset
selections and same transforms, in the same order), identical road
segments and cars, and identical zone classification for every block
coordinate.  The seed enters only through the RNG stream `r` and the noise
function `noise` (both fully determined by the seed in the source, via
`SmallRng::seed_from_u64` and `OpenSimplex::new(rng.random())`), so two
runs with the same seed and size are two evaluations of `setupCity` at the
same arguments. -/
theorem generation_deterministic (noise : ℚ → ℚ → ℚ) (r : Rng) (size : ℕ) (bx bz : ℤ)
    (out1 out2 : List Placement × List RoadSegment × List (Car × Transform) × Rng)
    (h1 : out1 = setupCity noise r size) (h2 : out2 = setupCity noise r size)
    (c1 c2 : DensityClass)
    (hc1 : c1 = classifyDensity (densityAt noise (blockOffset bx bz)))
    (hc2 : c2 = classifyDensity (densityAt noise (blockOffset bx bz))) :
    out1.1 = out2.1 ∧ out1.2.1 = out2.2.1 ∧ out1.2.2.1 = out2.2.2.1 ∧ c1 = c2 := by
  subst h1 h2 hc1 hc2
  exact ⟨rfl, rfl, rfl, rfl⟩

/-- Witness for C1 at a concrete noise function, RNG state, grid size and
block coordinate. -/
theorem generation_deterministic_witness :
    setupCity (fun _ _ => 0) constRng 0 = setupCity (fun _ _ => 0) constRng 0 ∧
    ((setupCity (fun _ _ => 0) constRng 0).1 = (setupCity (fun _ _ => 0) constRng 0).1 ∧
     (setupCity (fun _ _ => 0) constRng 0).2.1 = (setupCity (fun _ _ => 0) constRng 0).2.1 ∧
     (setupCity (fun _ _ => 0) constRng 0).2.2.1 = (setupCity (fun _ _ => 0) constRng 0).2.2.1 ∧
     classifyDensity (densityAt (fun _ _ => 0) (blockOffset 0 0)) =
       classifyDensity (densityAt (fun _ _ => 0) (blockOffset 0 0))) :=
  ⟨rfl, generation_deterministic (fun _ _ => 0) constRng 0 0 0 _ _ rfl rfl _ _ rfl rfl⟩

/-- C2: for every car bound to a resolvable segment, one `move_cars` tick
performs exactly the spec's transition rule (`specCarTick`): add
`speed * dt` to the distance, hard-reset to exactly `0.0` when the result
exceeds `segment.length` (not a subtraction of the length), then set the
translation to `segment.start + segment.direction * segment.length *
(distanceTraveled / segment.length)`.  In particular, for `speed = 2.0`,
`segment.length = 4.9` (an X lane), `distanceTraveled = 4.85`, `dt = 0.1`
the post-update distance is exactly `0`. -/
theorem move_cars_tick_spec :
    (∀ (seg : RoadSegment) (c : Car) (t : Transform) (dt : ℚ),
        moveCar (some seg) c t dt = specCarTick seg c t dt) ∧
    (moveCar (some (xSeg ⟨0, 0, 0⟩)) ⟨0, 2, 4.85⟩
        (Transform.fromTranslation ⟨0, 0, 0⟩) 0.1).1.distance_traveled = 0 := by
  constructor
  · intro seg c t dt
    rfl
  · norm_num [moveCar, xSeg]

/-- Counterexample to C3 as stated: after an update the distance can land
exactly ON `segment.length`, not strictly below it.  The X-lane slot-5 car
spawns with `distance_traveled = 5 * 0.55 = 2.75` and `speed = 2.0`; with
`dt = 43/40 = 1.075 s` the new distance is `2.75 + 2.15 = 4.9 =
segment.length`, the `>` test does not fire, and the post-update distance
is not in the half-open interval `[0, length)`. -/
theorem wrap_interval_counterexample :
    ¬ ((moveCar (some (xSeg ⟨0, 0, 0⟩)) ⟨0, 2, 2.75⟩
          (Transform.fromTranslation ⟨0, 0, 0⟩) (43/40)).1.distance_traveled
        < (xSeg ⟨0, 0, 0⟩).length) := by
  norm_num [moveCar, xSeg]

/-- C3 (amended): for every car with non-negative distance, speed and time
step bound to a segment of non-negative length, after a `move_cars` update
the distance lies in the CLOSED interval `[0, segment.length]`: it wraps
to `0` on overflow and is never negative, but it can equal the length
(the reset fires only on strict `>`). -/
theorem wrap_interval_amended (seg : RoadSegment) (c : Car) (t : Transform) (dt : ℚ)
    (hd : 0 ≤ c.distance_traveled) (hs : 0 ≤ c.speed) (hdt : 0 ≤ dt)
    (hl : 0 ≤ seg.length) :
    0 ≤ (moveCar (some seg) c t dt).1.distance_traveled ∧
    (moveCar (some seg) c t dt).1.distance_traveled ≤ seg.length := by
  simp only [moveCar]
  split
  · exact ⟨le_refl 0, hl⟩
  · constructor
    · exact add_nonneg hd (mul_nonneg hs hdt)
    · linarith [not_lt.mp (by assumption : ¬ (c.distance_traveled + c.speed * dt > seg.length))]

/-- Witness for the amended C3 at a concrete segment and car. -/
theorem wrap_interval_amended_witness :
    (0 : ℚ) ≤ 0 ∧ (0 : ℚ) ≤ 1 ∧
    (0 ≤ (moveCar (some ⟨⟨0, 0, 0⟩, ⟨0, 0, 0⟩, ⟨0, 0, 0⟩, 1⟩) ⟨0, 0, 0⟩
        (Transform.fromTranslation ⟨0, 0, 0⟩) 0).1.distance_traveled ∧
      (moveCar (some ⟨⟨0, 0, 0⟩, ⟨0, 0, 0⟩, ⟨0, 0, 0⟩, 1⟩) ⟨0, 0, 0⟩
        (Transform.fromTranslation ⟨0, 0, 0⟩) 0).1.distance_traveled ≤
        (⟨⟨0, 0, 0⟩, ⟨0, 0, 0⟩, ⟨0, 0, 0⟩, 1⟩ : RoadSegment).length) :=
  ⟨le_refl 0, zero_le_one,
    wrap_interval_amended ⟨⟨0, 0, 0⟩, ⟨0, 0, 0⟩, ⟨0, 0, 0⟩, 1⟩ ⟨0, 0, 0⟩
      (Transform.fromTranslation ⟨0, 0, 0⟩) 0
      (le_refl 0) (le_refl 0) (le_refl 0) zero_le_one⟩

/-- C4: the zone classifier computes
`density = noise(offset.x * 0.025, offset.z * 0.025) * 0.5 + 0.5`, which
lands in `[0, 1]` whenever the noise output is in `[-1, 1]`; and for every
density it returns exactly one of the four classes via the ascending
strict-less-than thresholds `0.45 / 0.6 / 0.7` (the four iffs partition
the line); in particular density exactly `0.45` maps to `LowDensity`, not
`Rural`. -/
theorem zone_classifier_spec (noise : ℚ → ℚ → ℚ) (offset : Vec3) (d : ℚ)
    (hlo : -1 ≤ noise (offset.x * 0.025) (offset.z * 0.025))
    (hhi : noise (offset.x * 0.025) (offset.z * 0.025) ≤ 1) :
    (0 ≤ densityAt noise offset ∧ densityAt noise offset ≤ 1) ∧
    ((classifyDensity d = .rural ↔ d < 0.45) ∧
     (classifyDensity d = .lowDensity ↔ 0.45 ≤ d ∧ d < 0.6) ∧
     (classifyDensity d = .mediumDensity ↔ 0.6 ≤ d ∧ d < 0.7) ∧
     (classifyDensity d = .highDensity ↔ 0.7 ≤ d)) ∧
    classifyDensity 0.45 = .lowDensity := by
  refine ⟨⟨?_, ?_⟩, ⟨?_, ?_, ?_, ?_⟩, ?_⟩
  · unfold densityAt
    nlinarith [hlo]
  · unfold densityAt
    nlinarith [hhi]
  · unfold classifyDensity
    split_ifs with h1 h2 h3 <;> simp_all <;> (try constructor) <;> intros <;> linarith
  · unfold classifyDensity
    split_ifs with h1 h2 h3 <;> simp_all <;> (try constructor) <;> intros <;> linarith
  · unfold classifyDensity
    split_ifs with h1 h2 h3 <;> simp_all <;> (try constructor) <;> intros <;> linarith
  · unfold classifyDensity
    split_ifs with h1 h2 h3 <;> simp_all <;> (try constructor) <;> intros <;> linarith
  · norm_num [classifyDensity]

/-- Witness for C4 at the constant-zero noise function and density 0.5. -/
theorem zone_classifier_spec_witness :
    (-1 : ℚ) ≤ (fun _ _ => (0 : ℚ)) ((⟨0, 0, 0⟩ : Vec3).x * 0.025) ((⟨0, 0, 0⟩ : Vec3).z * 0.025) ∧
    (fun _ _ => (0 : ℚ)) ((⟨0, 0, 0⟩ : Vec3).x * 0.025) ((⟨0, 0, 0⟩ : Vec3).z * 0.025) ≤ 1 ∧
    ((0 ≤ densityAt (fun _ _ => 0) ⟨0, 0, 0⟩ ∧ densityAt (fun _ _ => 0) ⟨0, 0, 0⟩ ≤ 1) ∧
     ((classifyDensity 0.5 = .rural ↔ (0.5 : ℚ) < 0.45) ∧
      (classifyDensity 0.5 = .lowDensity ↔ (0.45 : ℚ) ≤ 0.5 ∧ (0.5 : ℚ) < 0.6) ∧
      (classifyDensity 0.5 = .mediumDensity ↔ (0.6 : ℚ) ≤ 0.5 ∧ (0.5 : ℚ) < 0.7) ∧
      (classifyDensity 0.5 = .highDensity ↔ (0.7 : ℚ) ≤ 0.5)) ∧
     classifyDensity 0.45 = .lowDensity) :=
  ⟨neg_one_lt_zero.le, zero_le_one,
    zone_classifier_spec (fun _ _ => 0) ⟨0, 0, 0⟩ 0.5 neg_one_lt_zero.le zero_le_one⟩

/-- C5: for every block at offset `o`, generation registers exactly four
road segments, in order: the forward X lane at z-offset `+0.15` spanning
local X from 0.3 to 5.2, the reverse X lane at z-offset `-0.15` spanning
5.2 back to 0.3, the forward Z lane at x-offset `-0.15` spanning local Z
from 0.75 to 3.25, and the reverse Z lane at x-offset `+0.15` spanning
3.25 back to 0.75; and each registered segment satisfies
`segmentGeometry`: its length equals `|end - start| > 0` and its direction
is the unit vector `normalize(end - start)`. -/
theorem road_segments_spec (r : Rng) (offset : Vec3) (base : ℕ) :
    (spawnRoadsAndCars r offset base).2.1 =
      [xSeg offset, xRevSeg offset, zSeg offset, zRevSeg offset] ∧
    xSeg offset = ⟨⟨0.3, 0, 0.15⟩ + offset, ⟨5.2, 0, 0.15⟩ + offset, ⟨1, 0, 0⟩, 4.9⟩ ∧
    xRevSeg offset = ⟨⟨5.2, 0, -0.15⟩ + offset, ⟨0.3, 0, -0.15⟩ + offset, ⟨-1, 0, 0⟩, 4.9⟩ ∧
    zSeg offset = ⟨⟨-0.15, 0, 0.75⟩ + offset, ⟨-0.15, 0, 3.25⟩ + offset, ⟨0, 0, 1⟩, 2.5⟩ ∧
    zRevSeg offset = ⟨⟨0.15, 0, 3.25⟩ + offset, ⟨0.15, 0, 0.75⟩ + offset, ⟨0, 0, -1⟩, 2.5⟩ ∧
    segmentGeometry (xSeg offset) ∧ segmentGeometry (xRevSeg offset) ∧
    segmentGeometry (zSeg offset) ∧ segmentGeometry (zRevSeg offset) :=
  ⟨rfl, rfl, rfl, rfl, rfl, xSeg_geometry offset, xRevSeg_geometry offset,
    zSeg_geometry offset, zRevSeg_geometry offset⟩

/-- C7: for every RNG state (hence every seed) and every block classified
`LowDensity`, the block emits exactly 18 trees, 7 fences, 4 low-density
buildings and exactly one grass-material ground tile; the counts do not
depend on the RNG draws. -/
theorem low_density_block_counts (noise : ℚ → ℚ → ℚ) (r : Rng) (offset : Vec3) (base : ℕ)
    (h : classifyDensity (densityAt noise offset) = .lowDensity) :
    countAsset Asset.isTreeA (spawnCityBlock noise r offset base).1 = 18 ∧
    countAsset Asset.isFenceA (spawnCityBlock noise r offset base).1 = 7 ∧
    countAsset Asset.isLowBuildingA (spawnCityBlock noise r offset base).1 = 4 ∧
    countAsset Asset.isGrassTileA (spawnCityBlock noise r offset base).1 = 1 := by
  unfold classifyDensity at h
  split_ifs at h with h1 h2 h3
  refine ⟨?_, ?_, ?_, ?_⟩
  · simp only [spawnCityBlock]
    rw [if_neg h1, if_pos h2]
    simp [countAsset_append, countAsset_cons, countAsset_nil,
      spawnRoadsAndCars_count Asset.isTreeA (fun _ => rfl),
      spawnLowDensity_count_zeroB Asset.isTreeA (fun _ _ => rfl),
      groundTileP, Asset.isTreeA]
  · simp only [spawnCityBlock]
    rw [if_neg h1, if_pos h2]
    simp [countAsset_append, countAsset_cons, countAsset_nil,
      spawnRoadsAndCars_count Asset.isFenceA (fun _ => rfl),
      spawnLowDensity_count_zeroB Asset.isFenceA (fun _ _ => rfl),
      groundTileP, Asset.isFenceA]
  · simp only [spawnCityBlock]
    rw [if_neg h1, if_pos h2]
    simp [countAsset_append, countAsset_cons, countAsset_nil,
      spawnRoadsAndCars_count Asset.isLowBuildingA (fun _ => rfl),
      spawnLowDensity_count_fullB Asset.isLowBuildingA (fun _ _ => rfl),
      groundTileP, Asset.isLowBuildingA]
  · simp only [spawnCityBlock]
    rw [if_neg h1, if_pos h2]
    simp [countAsset_append, countAsset_cons, countAsset_nil,
      spawnRoadsAndCars_count Asset.isGrassTileA (fun _ => rfl),
      spawnLowDensity_count_zeroB Asset.isGrassTileA (fun _ _ => rfl),
      groundTileP, Asset.isGrassTileA]

/-- Witness for C7 at a concrete noise function giving density 0.55 (a
`LowDensity` block) and a concrete RNG state. -/
theorem low_density_block_counts_witness :
    classifyDensity (densityAt (fun _ _ => 0.1) ⟨0, 0, 0⟩) = .lowDensity ∧
    (countAsset Asset.isTreeA (spawnCityBlock (fun _ _ => 0.1) constRng ⟨0, 0, 0⟩ 0).1 = 18 ∧
     countAsset Asset.isFenceA (spawnCityBlock (fun _ _ => 0.1) constRng ⟨0, 0, 0⟩ 0).1 = 7 ∧
     countAsset Asset.isLowBuildingA (spawnCityBlock (fun _ _ => 0.1) constRng ⟨0, 0, 0⟩ 0).1 = 4 ∧
     countAsset Asset.isGrassTileA (spawnCityBlock (fun _ _ => 0.1) constRng ⟨0, 0, 0⟩ 0).1 = 1) :=
  ⟨by norm_num [classifyDensity, densityAt],
   low_density_block_counts (fun _ _ => 0.1) constRng ⟨0, 0, 0⟩ 0
     (by norm_num [classifyDensity, densityAt])⟩

/-- C8: for every medium-density block, the tree handle is drawn exactly
once per block from the 2-entry tree pool (the output tree indices are 18
copies of the single draw `r.ints r.ipos % 2 < 2`, and the whole generator
consumes exactly `1 + 10 * 2 = 21` integer draws: one tree draw plus two
independent draws for each of the 10 buildings); the five building slots
each place two buildings, front with rotation 0 and back rotated by π
(`mediumBuildingRots` is `[0, 1, 0, 1, ...]`, ten entries, in units of π),
which also gives the building count 10; every slot except the last (x = 5)
places two tree pairs (4 trees) and the last slot exactly one pair
(2 trees); and exactly 11 path-stone segments are placed. -/
theorem medium_density_spec (r : Rng) (offset : Vec3) :
    treeIndices (spawnMediumDensity r offset).1 =
      List.replicate 18 (r.ints r.ipos % 2) ∧
    r.ints r.ipos % 2 < 2 ∧
    mediumBuildingRots (spawnMediumDensity r offset).1 =
      [0, 1, 0, 1, 0, 1, 0, 1, 0, 1] ∧
    countAsset Asset.isMediumBuildingA (spawnMediumDensity r offset).1 = 10 ∧
    (∀ treeIdx x, countAsset Asset.isTreeA (medSlotTrees treeIdx x offset) =
      if x = 5 then 2 else 4) ∧
    countAsset Asset.isPathStonesA (spawnMediumDensity r offset).1 = 11 ∧
    (spawnMediumDensity r offset).2.ipos = r.ipos + 21 := by
  refine ⟨?_, ?_, ?_, ?_, ?_, ?_, ?_⟩
  · simp only [spawnMediumDensity, treeIndices_append, medPath_treeIndices,
      Rng.randomRange, medBuildLoop_treeIndices]
    simp
  · omega
  · simp only [spawnMediumDensity, mediumBuildingRots_append, medPath_rots,
      Rng.randomRange, medBuildLoop_rots]
    simp
  · simp only [spawnMediumDensity, countAsset_append, Rng.randomRange,
      medBuildLoop_count_buildings, medPath_count]
    simp [Asset.isMediumBuildingA]
  · intro treeIdx x
    exact medSlotTrees_count treeIdx x offset
  · simp only [spawnMediumDensity, countAsset_append, Rng.randomRange,
      medBuildLoop_count_zero Asset.isPathStonesA (fun _ _ => rfl) (fun _ => rfl),
      medPath_count]
    simp [Asset.isPathStonesA]
  · simp only [spawnMediumDensity, Rng.randomRange, medBuildLoop_ipos]
    simp

/-- C9: a car whose bound road-segment reference does not resolve is
skipped entirely by the `move_cars` tick: its `Car` component and its
transform are returned unchanged (the update is a total function, so no
error is raised), and the updates of all other cars in the query are
exactly what they would be without it. -/
theorem unresolved_segment_skip (segTable : ℕ → Option RoadSegment)
    (c : Car) (t : Transform) (dt : ℚ)
    (cars1 cars2 : List (Car × Transform))
    (h : segTable c.road_segment = none) :
    moveCar (segTable c.road_segment) c t dt = (c, t) ∧
    moveCars segTable (cars1 ++ (c, t) :: cars2) dt =
      moveCars segTable cars1 dt ++ (c, t) :: moveCars segTable cars2 dt := by
  constructor
  · rw [h]
    rfl
  · simp [moveCars, moveCar, h]

/-- Witness for C9 with an empty segment table. -/
theorem unresolved_segment_skip_witness :
    ((fun _ => none) : ℕ → Option RoadSegment) ((⟨0, 2, 0⟩ : Car).road_segment) = none ∧
    (moveCar (((fun _ => none) : ℕ → Option RoadSegment) ((⟨0, 2, 0⟩ : Car).road_segment))
        ⟨0, 2, 0⟩ (Transform.fromTranslation ⟨0, 0, 0⟩) 1 =
      (⟨0, 2, 0⟩, Transform.fromTranslation ⟨0, 0, 0⟩) ∧
    moveCars (fun _ => none) ([] ++ (⟨0, 2, 0⟩, Transform.fromTranslation ⟨0, 0, 0⟩) :: []) 1 =
      moveCars (fun _ => none) [] 1 ++
        (⟨0, 2, 0⟩, Transform.fromTranslation ⟨0, 0, 0⟩) :: moveCars (fun _ => none) [] 1) :=
  ⟨rfl, unresolved_segment_skip (fun _ => none) ⟨0, 2, 0⟩
    (Transform.fromTranslation ⟨0, 0, 0⟩) 1 [] [] rfl⟩

/-- C10: a freshly spawned car can start with `distance_traveled` exactly
equal to its segment's length: with an RNG whose draws all pass the
`car_density` test, the block at the origin spawns the forward Z-lane car
of slot 5 with `distance_traveled = 5 * 0.5 = 2.5`, while the forward Z
segment (`base + 2`, here entity id 2) has length `2.5`; so the initial
state sits on the closed boundary, not strictly inside `[0, length)`, and
the first update with any positive `dt` (the spawned speed is 2.0) resets
the distance to `0`. -/
theorem initial_distance_on_boundary (k : ℕ) (t : Transform) (dt : ℚ) (offset : Vec3)
    (hdt : 0 < dt) :
    (((⟨2, 2, 2.5⟩ : Car), zCarTransform ⟨0, 0, 0⟩ 5) ∈
        (spawnRoadsAndCars allSpawnRng ⟨0, 0, 0⟩ 0).2.2.1) ∧
    (zSeg offset).length = 2.5 ∧
    ¬ ((2.5 : ℚ) < (zSeg offset).length) ∧
    (moveCar (some (zSeg offset)) ⟨k, 2, 2.5⟩ t dt).1.distance_traveled = 0 := by
  refine ⟨?_, rfl, ?_, ?_⟩
  · have hmem := zCarLoop_mem_slot (List.range 6) ⟨0, 0, 0⟩ 0
      (xCarLoop (List.range 9) ⟨0, 0, 0⟩ 0 allSpawnRng).2.2
      (by rw [xCarLoop_floats]; rfl) 5 (by norm_num)
    have h5 : ((5 : ℕ) : ℚ) * 0.5 = (2.5 : ℚ) := by norm_num
    rw [h5] at hmem
    simp only [spawnRoadsAndCars, List.mem_append]
    right
    exact hmem
  · simp [zSeg]
  · simp only [moveCar]
    split
    · rfl
    · exfalso
      have hcontra := not_lt.mp (by assumption :
        ¬ ((2.5 : ℚ) + 2 * dt > (zSeg offset).length))
      simp only [zSeg] at hcontra
      linarith

/-- Witness for C10 at `dt = 1`. -/
theorem initial_distance_on_boundary_witness :
    (0 : ℚ) < 1 ∧
    ((((⟨2, 2, 2.5⟩ : Car), zCarTransform ⟨0, 0, 0⟩ 5) ∈
        (spawnRoadsAndCars allSpawnRng ⟨0, 0, 0⟩ 0).2.2.1) ∧
     (zSeg ⟨0, 0, 0⟩).length = 2.5 ∧
     ¬ ((2.5 : ℚ) < (zSeg ⟨0, 0, 0⟩).length) ∧
     (moveCar (some (zSeg ⟨0, 0, 0⟩)) ⟨0, 2, 2.5⟩
        (Transform.fromTranslation ⟨0, 0, 0⟩) 1).1.distance_traveled = 0) :=
  ⟨zero_lt_one,
    initial_distance_on_boundary 0 (Transform.fromTranslation ⟨0, 0, 0⟩) 1 ⟨0, 0, 0⟩
      zero_lt_one⟩

end BevyCity
